import Mathlib

/-!
Verification development for the command-mediation core of the `agent_tool`
repository (files `src/command_processor.py`, `src/cli.py`,
`src/user_interaction.py`).  The Python code is shallowly embedded: pure
string scanning becomes Lean functions on `String`/`List Char`, Python
exceptions become `Except PyError`, and the operating-system behaviour of
`subprocess` is an explicit oracle argument.  Definitions keep the source
names where Lean allows it.
-/

namespace AgentTool

/-! ### Python string primitives

`isSpaceChar` models the ASCII part of Python whitespace (`\s` in `re`,
`str.strip`): space, tab, newline, carriage return, vertical tab, form feed.
All commands considered by the repository are ASCII. -/

def isSpaceChar (c : Char) : Bool :=
  c = ' ' || c = '\t' || c = '\n' || c = '\r' || c = '\x0b' || c = '\x0c'

/-- Python `str.strip()` (ASCII whitespace). -/
def pyStrip (s : String) : String :=
  String.mk (((s.toList.dropWhile isSpaceChar).reverse.dropWhile isSpaceChar).reverse)

/-- Python `str.lower()` (ASCII case folding, as used on the advisory
risk-level strings and on user choices). -/
def pyLower (s : String) : String :=
  String.mk (s.toList.map Char.toLower)

/-- Substring search on character lists: does `pat` occur contiguously in
`xs`? -/
def subSearch (pat : List Char) : (xs : List Char) → Bool
  | [] => pat.isPrefixOf []
  | x :: xs => pat.isPrefixOf (x :: xs) || subSearch pat xs

/-- Python substring containment `pat in s` on strings. -/
def strContains (s pat : String) : Bool :=
  subSearch pat.toList s.toList

/-! ### The regular-expression subset used by `SecurityChecker.DANGEROUS_PATTERNS`

The twenty patterns only use literal characters, `\s+`, `\s*` and `.*`
(plus one empty group `()`, which matches the empty string).  They are
evaluated with `re.search(pattern, command, re.IGNORECASE)`, i.e. the
pattern may match anywhere in the command and literals compare
case-insensitively.  `.` does not match a newline. -/

inductive Tok
  | lit (c : Char)
  | ws1
  | ws0
  | anyStar
deriving DecidableEq

/-- Fuelled worker for `matchHere`.  Every step consumes one unit of fuel
and strictly decreases `ts.length + xs.length` (replacing a leading `\s+`
by `\s*` keeps the pattern length), so fuel `ts.length + xs.length + 1` is
always sufficient and the out-of-fuel branch is unreachable; structural
recursion on the fuel keeps the function definitionally reducible. -/
def matchHereF : Nat → List Tok → List Char → Bool
  | 0, _, _ => false
  | _ + 1, [], _ => true
  | _ + 1, .lit _ :: _, [] => false
  | f + 1, .lit c :: ts, x :: xs => x.toLower = c && matchHereF f ts xs
  | _ + 1, .ws1 :: _, [] => false
  | f + 1, .ws1 :: ts, x :: xs => isSpaceChar x && matchHereF f (.ws0 :: ts) xs
  | f + 1, .ws0 :: ts, [] => matchHereF f ts []
  | f + 1, .ws0 :: ts, x :: xs =>
      matchHereF f ts (x :: xs) || (isSpaceChar x && matchHereF f (.ws0 :: ts) xs)
  | f + 1, .anyStar :: ts, [] => matchHereF f ts []
  | f + 1, .anyStar :: ts, x :: xs =>
      matchHereF f ts (x :: xs) || (x ≠ '\n' && matchHereF f (.anyStar :: ts) xs)

/-- Does the token list match some prefix of the character list?
Literals are compared case-insensitively (the patterns are lower case). -/
def matchHere (ts : List Tok) (xs : List Char) : Bool :=
  matchHereF (ts.length + xs.length + 1) ts xs

/-- Match the token list at some position of the character list
(`re.search` semantics). -/
def searchTL (ts : List Tok) : (xs : List Char) → Bool
  | [] => matchHere ts []
  | x :: xs => matchHere ts (x :: xs) || searchTL ts xs

/-- `re.search(p, command, re.IGNORECASE)` as a Bool. -/
def reSearch (ts : List Tok) (s : String) : Bool :=
  searchTL ts s.toList

/-- Literal characters of a string as pattern tokens. -/
def lits (s : String) : List Tok :=
  s.toList.map Tok.lit

/-- One entry of `DANGEROUS_PATTERNS`: the regex source text (used in the
warning message) together with its token translation. -/
structure Pattern where
  src : String
  toks : List Tok

/-- `SecurityChecker.DANGEROUS_PATTERNS`, in source order.  In the
fork-bomb pattern the unescaped `()` is an empty regex group, which
matches the empty string, so it contributes no tokens. -/
def DANGEROUS_PATTERNS : List Pattern :=
  [ ⟨"rm\\s+-rf\\s*/", lits "rm" ++ [.ws1] ++ lits "-rf" ++ [.ws0] ++ lits "/"⟩
  , ⟨"rm\\s+-rf\\s*\\*", lits "rm" ++ [.ws1] ++ lits "-rf" ++ [.ws0] ++ lits "*"⟩
  , ⟨"dd\\s+if=.*of=/dev/", lits "dd" ++ [.ws1] ++ lits "if=" ++ [.anyStar] ++ lits "of=/dev/"⟩
  , ⟨"mkfs\\.", lits "mkfs."⟩
  , ⟨"fdisk", lits "fdisk"⟩
  , ⟨"parted", lits "parted"⟩
  , ⟨"wipefs", lits "wipefs"⟩
  , ⟨"shred", lits "shred"⟩
  , ⟨">/dev/sda", lits ">/dev/sda"⟩
  , ⟨"chmod\\s+777\\s+/", lits "chmod" ++ [.ws1] ++ lits "777" ++ [.ws1] ++ lits "/"⟩
  , ⟨"chown\\s+.*:.*\\s+/",
      lits "chown" ++ [.ws1] ++ [.anyStar] ++ lits ":" ++ [.anyStar] ++ [.ws1] ++ lits "/"⟩
  , ⟨"systemctl\\s+stop", lits "systemctl" ++ [.ws1] ++ lits "stop"⟩
  , ⟨"systemctl\\s+disable", lits "systemctl" ++ [.ws1] ++ lits "disable"⟩
  , ⟨"service\\s+.*\\s+stop", lits "service" ++ [.ws1] ++ [.anyStar] ++ [.ws1] ++ lits "stop"⟩
  , ⟨"killall\\s+-9", lits "killall" ++ [.ws1] ++ lits "-9"⟩
  , ⟨"pkill\\s+-9", lits "pkill" ++ [.ws1] ++ lits "-9"⟩
  , ⟨":()\\\x7b\\s*:\\|\\:\\&\\s*\\\x7d;:",
      lits ":\x7b" ++ [.ws0] ++ lits ":|:&" ++ [.ws0] ++ lits "\x7d;:"⟩
  , ⟨"curl.*\\|\\s*sh", lits "curl" ++ [.anyStar] ++ lits "|" ++ [.ws0] ++ lits "sh"⟩
  , ⟨"wget.*\\|\\s*sh", lits "wget" ++ [.anyStar] ++ lits "|" ++ [.ws0] ++ lits "sh"⟩
  , ⟨"eval\\s*\\$\\(", lits "eval" ++ [.ws0] ++ lits "$("⟩ ]

/-! ### RiskLevel and the Python `max` failure

`RiskLevel` in the source is a plain `enum.Enum` with string values.  Plain
`Enum` members do not implement the ordering comparisons, so the calls
`max(risk_level, RiskLevel.HIGH)` and `max(risk_level, RiskLevel.MEDIUM)`
in `check_command_safety` raise
`TypeError: > not supported between instances of RiskLevel`.
We model a raised exception as `Except.error`. -/

inductive RiskLevel
  | low
  | medium
  | high
  | critical
deriving DecidableEq

/-- A raised Python exception (only `TypeError` is reachable in the
embedded fragment). -/
inductive PyError
  | typeError (msg : String)
deriving DecidableEq

/-- The message of the `TypeError` raised by `max` on two `RiskLevel`
members (apostrophes elided from the CPython text). -/
def riskMaxMsg : String :=
  "> not supported between instances of RiskLevel and RiskLevel"

/-- Python `max` applied to two members of the plain Enum `RiskLevel`:
always raises `TypeError`, because plain `Enum` defines no ordering. -/
def riskMax (_a _b : RiskLevel) : Except PyError RiskLevel :=
  .error (.typeError riskMaxMsg)

/-! ### SecurityChecker -/

/-- The `security` section of the configuration, as read by
`SecurityChecker.__init__` (defaults of `ConfigManager.DEFAULT_CONFIG`:
`strict_mode = True`, `allow_sudo = False`, `allowed_dirs = []`). -/
structure SecurityCfg where
  strict_mode : Bool
  allow_sudo : Bool
  allowed_dirs : List String
deriving DecidableEq

/-- The shipped default security configuration. -/
def defaultSecurityCfg : SecurityCfg :=
  ⟨true, false, []⟩

/-- `SecurityChecker.SUDO_COMMANDS`. -/
def SUDO_COMMANDS : List String :=
  [ "apt", "yum", "dnf", "pacman", "zypper"
  , "systemctl", "service", "mount", "umount"
  , "fdisk", "parted", "mkfs", "fsck"
  , "iptables", "ufw", "firewall-cmd"
  , "docker", "podman" ]

/-- `SecurityChecker.FILE_COMMANDS`. -/
def FILE_COMMANDS : List String :=
  [ "rm", "cp", "mv", "chmod", "chown", "ln"
  , "touch", "mkdir", "rmdir" ]

/-- The local list `important_dirs` of `check_command_safety`. -/
def important_dirs : List String :=
  ["/bin", "/sbin", "/usr", "/etc", "/boot", "/lib", "/var"]

/-- The local list `network_commands` of `check_command_safety`. -/
def network_commands : List String :=
  ["curl", "wget", "nc", "netcat", "ssh", "scp", "rsync"]

/-- `any(cmd in command for cmd in self.SUDO_COMMANDS)`. -/
def sudoHit (command : String) : Bool :=
  SUDO_COMMANDS.any (fun c => strContains command c)

/-- `any(cmd in command for cmd in self.FILE_COMMANDS)`. -/
def fileHit (command : String) : Bool :=
  FILE_COMMANDS.any (fun c => strContains command c)

/-- `any(cmd in command for cmd in network_commands)`. -/
def networkHit (command : String) : Bool :=
  network_commands.any (fun c => strContains command c)

/-- `"|" in command or ">" in command or ">>" in command`. -/
def pipeHit (command : String) : Bool :=
  strContains command "|" || strContains command ">" || strContains command ">>"

/-- First block of `check_command_safety`: the loop over
`DANGEROUS_PATTERNS`.  Each match appends a warning and sets the risk to
`CRITICAL` by direct assignment (no `max`, so no exception here).
The accumulator is `(warnings, risk_level)`. -/
def dangerousScan (command : String) : List String × RiskLevel :=
  DANGEROUS_PATTERNS.foldl
    (fun acc p =>
      if reSearch p.toks command then
        (acc.1 ++ ["发现危险操作模式: " ++ p.src], RiskLevel.critical)
      else acc)
    ([], RiskLevel.low)

/-- Second block of `check_command_safety`: the sudo-command check.  The
source appends the warning and then computes `max(...)`, which raises; an
error discards the pending local mutation, so the order of the two is not
observable. -/
def sudoStage (cfg : SecurityCfg) (command : String) (acc : List String × RiskLevel) :
    Except PyError (List String × RiskLevel) :=
  if sudoHit command then
    if cfg.allow_sudo = false then
      (riskMax acc.2 .high).map
        (fun r => (acc.1 ++ ["命令需要管理员权限，但未允许sudo操作"], r))
    else
      (riskMax acc.2 .medium).map
        (fun r => (acc.1 ++ ["命令需要管理员权限"], r))
  else .ok acc

/-- Third block of `check_command_safety`: file-operation checks (the
important-directory loop breaks at the first match, then the allow-list
check runs when `allowed_dirs` is non-empty). -/
def fileStage (cfg : SecurityCfg) (command : String) (acc : List String × RiskLevel) :
    Except PyError (List String × RiskLevel) :=
  if fileHit command then
    match
      (match important_dirs.find? (fun d => strContains command d) with
        | some d =>
            (riskMax acc.2 .high).map
              (fun r => (acc.1 ++ ["操作系统重要目录: " ++ d], r))
        | none => .ok acc : Except PyError (List String × RiskLevel))
    with
    | .error e => .error e
    | .ok acc1 =>
      if cfg.allowed_dirs.isEmpty then .ok acc1
      else if cfg.allowed_dirs.any (fun d => strContains command d) then .ok acc1
      else
        (riskMax acc1.2 .medium).map
          (fun r => (acc1.1 ++ ["文件操作不在允许的目录范围内"], r))
  else .ok acc

/-- Fourth block of `check_command_safety`: network tools. -/
def networkStage (command : String) (acc : List String × RiskLevel) :
    Except PyError (List String × RiskLevel) :=
  if networkHit command then
    (riskMax acc.2 .medium).map (fun r => (acc.1 ++ ["包含网络操作"], r))
  else .ok acc

/-- Fifth block of `check_command_safety`: pipes and redirections. -/
def pipeStage (command : String) (acc : List String × RiskLevel) :
    Except PyError (List String × RiskLevel) :=
  if pipeHit command then
    (riskMax acc.2 .medium).map (fun r => (acc.1 ++ ["包含管道或重定向操作"], r))
  else .ok acc

/-- `SecurityChecker.check_command_safety(command)`: returns
`(risk_level, warnings)`, or the raised `TypeError` when any `max` call is
reached. -/
def check_command_safety (cfg : SecurityCfg) (command : String) :
    Except PyError (RiskLevel × List String) :=
  match sudoStage cfg command (dangerousScan command) with
  | .error e => .error e
  | .ok acc1 =>
    match fileStage cfg command acc1 with
    | .error e => .error e
    | .ok acc2 =>
      match networkStage command acc2 with
      | .error e => .error e
      | .ok acc3 =>
        match pipeStage command acc3 with
        | .error e => .error e
        | .ok acc4 => .ok (acc4.2, acc4.1)

/-- `SecurityChecker.is_command_allowed(command)` (recomputes the
classification, as the source does). -/
def is_command_allowed (cfg : SecurityCfg) (command : String) :
    Except PyError Bool :=
  match check_command_safety cfg command with
  | .error e => .error e
  | .ok (risk, _) =>
    if risk = RiskLevel.critical then .ok false
    else if cfg.strict_mode && risk = RiskLevel.high then .ok false
    else .ok true

/-! ### Lexical well-formedness (`shlex.split`)

`validate_command` calls `shlex.split(command)` only to detect a
`ValueError` (unbalanced quoting or a trailing escape); the token list is
discarded.  Modelled from the documented POSIX behaviour of the standard
library: an error is raised exactly when the scan ends inside a quote or
right after an escape character. -/

inductive LexState
  | norm
  | esc
  | squote
  | dquote
  | dqesc

/-- Quote scanner for `shlex.split`: `true` iff no `ValueError` is raised. -/
def shlexScan : LexState → List Char → Bool
  | .norm, [] => true
  | .esc, [] => false
  | .squote, [] => false
  | .dquote, [] => false
  | .dqesc, [] => false
  | .norm, c :: cs =>
      if c = '\\' then shlexScan .esc cs
      else if c = '\x27' then shlexScan .squote cs
      else if c = '"' then shlexScan .dquote cs
      else shlexScan .norm cs
  | .esc, _ :: cs => shlexScan .norm cs
  | .squote, c :: cs =>
      if c = '\x27' then shlexScan .norm cs else shlexScan .squote cs
  | .dquote, c :: cs =>
      if c = '"' then shlexScan .norm cs
      else if c = '\\' then shlexScan .dqesc cs
      else shlexScan .dquote cs
  | .dqesc, _ :: cs => shlexScan .dquote cs

/-- `shlex.split(command)` succeeds. -/
def shlexOk (command : String) : Bool :=
  shlexScan .norm command.toList

/-- `CommandProcessor.validate_command(command)`: returns
`(is_valid, warnings)`, or propagates the classifier exception.  The
`ValueError` text interpolated into the syntax warning is abstracted away;
only the fixed prefix of the message is kept. -/
def validate_command (cfg : SecurityCfg) (command : String) :
    Except PyError (Bool × List String) :=
  if pyStrip command = "" then .ok (false, ["命令为空"])
  else if shlexOk command = false then .ok (false, ["命令语法错误"])
  else
    match check_command_safety cfg command with
    | .error e => .error e
    | .ok (_risk, security_warnings) =>
      match is_command_allowed cfg command with
      | .error e => .error e
      | .ok allowed =>
        if allowed then .ok (true, security_warnings)
        else .ok (false, security_warnings ++ ["命令被安全策略拒绝"])

/-! ### Execution Engine (`CommandProcessor.execute_command`)

The behaviour of the operating system (what `subprocess.Popen` /
`communicate` do for this command) is an explicit oracle argument
`ExecOutcome`; elapsed wall-clock time is carried as a number supplied by
the oracle.  Besides the returned `CommandResult`, the embedding reports
what the call leaves behind as a `ChildStatus`, read off the source: the
`except subprocess.TimeoutExpired` handler builds and returns a result
without calling `kill()`/`terminate()` on the process, so on that path the
child is still running when `execute_command` returns. -/

/-- The `execution` section of the configuration. -/
structure ExecCfg where
  execution_timeout : Nat
  working_dir : String
deriving DecidableEq

/-- The `CommandResult` dataclass. -/
structure CommandResult where
  success : Bool
  return_code : Int
  stdout : String
  stderr : String
  execution_time : Nat
  command : String
deriving DecidableEq

/-- What the operating system does with the spawned command. -/
inductive ExecOutcome
  | completes (returncode : Int) (stdout stderr : String) (elapsed : Nat)
  | timesOut (elapsed : Nat)
  | spawnFails (message : String) (elapsed : Nat)
deriving DecidableEq

/-- State of the child process at the moment `execute_command` returns. -/
inductive ChildStatus
  | noChild
  | exited
  | running
deriving DecidableEq

/-- `CommandProcessor.execute_command(command, dry_run)`. -/
def execute_command (cfg : ExecCfg) (command : String) (dry_run : Bool)
    (env : ExecOutcome) : CommandResult × ChildStatus :=
  if dry_run then
    (⟨true, 0, "[DRY RUN] 命令未实际执行", "", 0, command⟩, .noChild)
  else
    match env with
    | .completes rc out err t =>
        (⟨rc = 0, rc, out, err, t, command⟩, .exited)
    | .timesOut t =>
        (⟨false, -1, "",
          "命令执行超时 (" ++ toString cfg.execution_timeout ++ "s)", t, command⟩,
         .running)
    | .spawnFails msg t =>
        (⟨false, -2, "", "执行异常: " ++ msg, t, command⟩, .noChild)

/-! ### Confirmation protocol (`AgentCLI._process_user_command` and
`UserInteractionManager`)

The generator output is a `CommandInfo` record; its `risk_level` field is
the advisory risk string produced by the LLM.  Interactive input is a
script: one `(UserChoice, String)` pair per prompt cycle, the string being
the raw text typed at the modify prompt (ignored for other choices).
`get_user_confirmation` short-circuits the prompt in auto mode (always
EXECUTE) and when the advisory risk string lowercases to critical (always
CANCEL). -/

/-- The generator output dictionary (`command_info`). -/
structure CommandInfo where
  command : String
  description : String
  risk_level : String
  explanation : String
deriving DecidableEq

/-- The `UserChoice` enum. -/
inductive UserChoice
  | execute
  | modify
  | cancel
  | help
  | explain
deriving DecidableEq

/-- `UserInteractionManager.get_modified_command(original)`: `userText` is
the raw prompt input; an empty input falls back to the original (prompt
default), and a result equal to the original after stripping is `None`. -/
def get_modified_command (userText original : String) : Option String :=
  let modified := if userText = "" then original else userText
  if pyStrip modified = pyStrip original then none else some (pyStrip modified)

/-- Terminal outcome of one `_process_user_command` cycle.
`executed c w` records that `_execute_command` was invoked with command
text `c` and warnings `w`; `pyError` is an exception propagating to the
outer `except` handler (which logs and returns without executing);
`awaitingInput` marks an exhausted interaction script. -/
inductive CycleOutcome
  | executed (command : String) (warnings : List String)
  | cancelled
  | rejected (warnings : List String)
  | noCommand
  | awaitingInput
  | pyError (e : PyError)
deriving DecidableEq

/-- The `while True` confirmation loop of `_process_user_command`.  Each
iteration recomputes `get_user_confirmation`: auto mode forces EXECUTE,
an advisory risk string lowercasing to critical forces CANCEL, otherwise
the next scripted choice is used.  A modification is revalidated; only an
accepted replacement becomes the presented command (the Python guard
`if modified_command:` also drops an empty replacement). -/
def confirmLoop (cfg : SecurityCfg) (auto_mode : Bool) (info : CommandInfo) :
    (script : List (UserChoice × String)) → (command : String) →
    (warnings : List String) → CycleOutcome
  | [], command, warnings =>
    if auto_mode then CycleOutcome.executed command warnings
    else if pyLower info.risk_level = "critical" then CycleOutcome.cancelled
    else CycleOutcome.awaitingInput
  | (choice, raw) :: rest, command, warnings =>
    if auto_mode then CycleOutcome.executed command warnings
    else if pyLower info.risk_level = "critical" then CycleOutcome.cancelled
    else
      match choice with
      | UserChoice.execute => CycleOutcome.executed command warnings
      | UserChoice.cancel => CycleOutcome.cancelled
      | UserChoice.help => confirmLoop cfg auto_mode info rest command warnings
      | UserChoice.explain => confirmLoop cfg auto_mode info rest command warnings
      | UserChoice.modify =>
        match get_modified_command raw command with
        | none => confirmLoop cfg auto_mode info rest command warnings
        | some m =>
          if m = "" then confirmLoop cfg auto_mode info rest command warnings
          else
            match validate_command cfg m with
            | Except.error e => CycleOutcome.pyError e
            | Except.ok (true, w2) => confirmLoop cfg auto_mode info rest m w2
            | Except.ok (false, _) => confirmLoop cfg auto_mode info rest command warnings

/-- `AgentCLI._process_user_command`, from the point where the generator
returned `info`: reject an empty generation, validate, then run the
confirmation loop.  An exception from the validator propagates to the
outer handler (no execution). -/
def process_user_command (cfg : SecurityCfg) (auto_mode : Bool) (info : CommandInfo)
    (script : List (UserChoice × String)) : CycleOutcome :=
  if info.command = "" then CycleOutcome.noCommand
  else
    match validate_command cfg info.command with
    | Except.error e => CycleOutcome.pyError e
    | Except.ok (false, warnings) => CycleOutcome.rejected warnings
    | Except.ok (true, warnings) => confirmLoop cfg auto_mode info script info.command warnings

/-! ### Helper lemmas -/

/-- Substring search agrees with the infix relation. -/
theorem subSearch_iff (pat : List Char) :
    ∀ xs : List Char, subSearch pat xs = true ↔ pat <:+: xs := by
  intro xs
  induction xs with
  | nil => simp [subSearch]
  | cons x xs ih =>
      simp [subSearch, ih, List.infix_cons_iff]

/-- Python substring containment agrees with the infix relation on the
character lists. -/
theorem strContains_iff (s pat : String) :
    strContains s pat = true ↔ pat.toList <:+: s.toList :=
  subSearch_iff pat.toList s.toList

/-- The sudo block returns the accumulator untouched when no privileged
name occurs, and otherwise raises the `RiskLevel` comparison error. -/
theorem sudoStage_eq (cfg : SecurityCfg) (command : String)
    (acc : List String × RiskLevel) :
    sudoStage cfg command acc =
      (if sudoHit command then Except.error (PyError.typeError riskMaxMsg)
       else Except.ok acc) := by
  unfold sudoStage riskMax
  cases h : sudoHit command <;> simp only [h, Bool.false_eq_true, if_false, if_true]
  split <;> rfl

/-- The file block either passes the accumulator through or raises the
`RiskLevel` comparison error. -/
theorem fileStage_cases (cfg : SecurityCfg) (command : String)
    (acc : List String × RiskLevel) :
    fileStage cfg command acc = Except.ok acc
      ∨ fileStage cfg command acc = Except.error (PyError.typeError riskMaxMsg) := by
  unfold fileStage riskMax
  by_cases hf : fileHit command = true
  · simp only [hf, if_true]
    cases hfind : List.find? (fun d => strContains command d) important_dirs with
    | none =>
        simp only [hfind]
        by_cases he : cfg.allowed_dirs.isEmpty
        · left; simp [he]
        · by_cases ha : cfg.allowed_dirs.any fun d => strContains command d
          · left; simp [he, ha]
          · right; simp [he, ha, Except.map]
    | some d =>
        simp only [hfind]
        right
        rfl
  · simp [hf]

/-- The network block raises the `RiskLevel` comparison error exactly when
a network-tool name occurs as a substring. -/
theorem networkStage_eq (command : String) (acc : List String × RiskLevel) :
    networkStage command acc =
      (if networkHit command then Except.error (PyError.typeError riskMaxMsg)
       else Except.ok acc) := by
  unfold networkStage riskMax
  cases h : networkHit command <;> simp [h, Except.map]

/-! ### Claim theorems -/

/-- Claim C2 (code bug): the risk classifier is not total.  Because
`RiskLevel` is a plain Enum without ordering, the `max` call raises
`TypeError` as soon as any risk-raising branch beyond the
dangerous-pattern loop fires — here on the network command
`curl example.com`.  The unmatched-command half of the claim does hold:
`pwd` yields LOW with no findings. -/
theorem c2_classifier_not_total :
    check_command_safety defaultSecurityCfg "curl example.com"
        = Except.error (PyError.typeError riskMaxMsg)
      ∧ check_command_safety defaultSecurityCfg "pwd"
        = Except.ok (RiskLevel.low, []) :=
  ⟨rfl, rfl⟩

/-- Claim C3 (code bug): `RiskLevel` carries no order in the source, and a
command matching rules in several categories at once — here the
download-and-pipe CRITICAL signature together with the network-tool rule —
makes the classifier raise `TypeError` from `max` instead of reporting the
maximum of the matched tiers. -/
theorem c3_no_max_combination :
    (dangerousScan "curl http://x | sh").2 = RiskLevel.critical
      ∧ networkHit "curl http://x | sh" = true
      ∧ check_command_safety defaultSecurityCfg "curl http://x | sh"
          = Except.error (PyError.typeError riskMaxMsg) :=
  ⟨rfl, rfl, rfl⟩

/-- Claim C4 (code bug): for the non-empty, lexically well-formed command
`systemctl status nginx` (privileged-tool membership, intended risk HIGH),
the validator raises `TypeError` instead of returning a verdict — both
without strict mode (where the claim promises accepted-with-warning) and
with it (where the claim promises rejection). -/
theorem c4_validator_crashes_on_high :
    pyStrip "systemctl status nginx" ≠ ""
      ∧ shlexOk "systemctl status nginx" = true
      ∧ validate_command ⟨false, false, []⟩ "systemctl status nginx"
          = Except.error (PyError.typeError riskMaxMsg)
      ∧ validate_command ⟨true, false, []⟩ "systemctl status nginx"
          = Except.error (PyError.typeError riskMaxMsg) :=
  ⟨by decide, rfl, rfl, rfl⟩

/-- Claim C5 (code bug): with a non-empty allowed-directory list not
occurring in the command text, classification of `rm -rf /` raises
`TypeError` (the file-operation allow-list branch reaches `max`), so
neither CRITICAL nor a rejection is returned — the property is not
policy-independent.  Under the default policy (empty allow-list) the
intended behaviour is observed: CRITICAL and rejection. -/
theorem c5_not_policy_independent :
    check_command_safety ⟨true, false, ["/home/user"]⟩ "rm -rf /"
        = Except.error (PyError.typeError riskMaxMsg)
      ∧ validate_command ⟨true, false, ["/home/user"]⟩ "rm -rf /"
        = Except.error (PyError.typeError riskMaxMsg)
      ∧ check_command_safety defaultSecurityCfg "rm -rf /"
        = Except.ok (RiskLevel.critical, ["发现危险操作模式: rm\\s+-rf\\s*/"])
      ∧ validate_command defaultSecurityCfg "rm -rf /"
        = Except.ok (false, ["发现危险操作模式: rm\\s+-rf\\s*/", "命令被安全策略拒绝"]) :=
  ⟨rfl, rfl, rfl, rfl⟩

/-- Claim C7 (code bug): on the timeout path the `except TimeoutExpired`
handler returns the failure result without killing the child, so the child
process is still running when `execute_command` returns — for every
configuration, command and elapsed time. -/
theorem c7_timeout_leaves_child_running (cfg : ExecCfg) (command : String) (t : Nat) :
    (execute_command cfg command false (ExecOutcome.timesOut t)).2 = ChildStatus.running :=
  rfl

/-- Claim C8 (confirmed): the two failure sentinels are the distinct
negative exit codes -1 (timeout, with the timeout message in stderr) and
-2 (spawn/OS-level failure, with the failure description in stderr), and
both results carry success=false. -/
theorem c8_failure_sentinels (cfg : ExecCfg) (command msg : String) (t u : Nat) :
    (execute_command cfg command false (ExecOutcome.timesOut t)).1.success = false
      ∧ (execute_command cfg command false (ExecOutcome.timesOut t)).1.return_code = -1
      ∧ (execute_command cfg command false (ExecOutcome.timesOut t)).1.stderr
          = "命令执行超时 (" ++ toString cfg.execution_timeout ++ "s)"
      ∧ (execute_command cfg command false (ExecOutcome.spawnFails msg u)).1.success = false
      ∧ (execute_command cfg command false (ExecOutcome.spawnFails msg u)).1.return_code = -2
      ∧ (execute_command cfg command false (ExecOutcome.spawnFails msg u)).1.stderr
          = "执行异常: " ++ msg
      ∧ ((-1 : Int) ≠ (-2 : Int))
      ∧ ((-1 : Int) < 0)
      ∧ ((-2 : Int) < 0) :=
  ⟨rfl, rfl, rfl, rfl, rfl, rfl, by decide, by decide, by decide⟩

/-- Loop invariant for the confirmation protocol: if the presented command
is validator-accepted with exactly the carried warnings, then any
execution the loop performs is of a validator-accepted command together
with that validation's warnings. -/
theorem confirmLoop_executed_validated (cfg : SecurityCfg) (auto_mode : Bool)
    (info : CommandInfo) (c : String) (w : List String) :
    ∀ (script : List (UserChoice × String)) (command : String) (warnings : List String),
      validate_command cfg command = Except.ok (true, warnings) →
      confirmLoop cfg auto_mode info script command warnings = CycleOutcome.executed c w →
      validate_command cfg c = Except.ok (true, w) := by
  intro script
  induction script with
  | nil =>
      intro command warnings hv h
      simp only [confirmLoop] at h
      split at h
      · injection h with h1 h2
        subst h1; subst h2; exact hv
      · split at h <;> simp at h
  | cons p rest ih =>
      obtain ⟨choice, raw⟩ := p
      intro command warnings hv h
      simp only [confirmLoop] at h
      split at h
      · injection h with h1 h2
        subst h1; subst h2; exact hv
      · split at h
        · simp at h
        · split at h
          · injection h with h1 h2
            subst h1; subst h2; exact hv
          · simp at h
          · exact ih command warnings hv h
          · exact ih command warnings hv h
          · split at h
            · exact ih command warnings hv h
            · split at h
              · exact ih command warnings hv h
              · split at h
                · simp at h
                · rename_i w2 hval
                  exact ih _ w2 hval h
                · exact ih command warnings hv h

/-- Claim C1 (confirmed): the execution engine is only ever invoked on a
command text for which the validator returned accepted, together with that
validation's warnings; a rejected text terminates the cycle without
execution. -/
theorem c1_executed_implies_validated (cfg : SecurityCfg) (auto_mode : Bool)
    (info : CommandInfo) (script : List (UserChoice × String)) (c : String)
    (w : List String)
    (h : process_user_command cfg auto_mode info script = CycleOutcome.executed c w) :
    validate_command cfg c = Except.ok (true, w) := by
  unfold process_user_command at h
  split at h
  · simp at h
  · split at h
    · simp at h
    · simp at h
    · rename_i warnings heq
      exact confirmLoop_executed_validated cfg auto_mode info c w script
        info.command warnings heq h

/-- Witness for claim C1: a concrete interactive run that executes the
benign command it validated. -/
theorem c1_executed_implies_validated_witness :
    validate_command defaultSecurityCfg "ls -la /tmp" = Except.ok (true, []) :=
  c1_executed_implies_validated defaultSecurityCfg false
    ⟨"ls -la /tmp", "list", "low", "demo"⟩ [(UserChoice.execute, "")]
    "ls -la /tmp" [] rfl

/-- Advisory strings that do not lowercase to critical never affect the
confirmation loop. -/
theorem confirmLoop_advisory_agnostic (cfg : SecurityCfg) (auto_mode : Bool)
    (i1 i2 : CommandInfo)
    (h1 : pyLower i1.risk_level ≠ "critical")
    (h2 : pyLower i2.risk_level ≠ "critical") :
    ∀ (script : List (UserChoice × String)) (command : String) (warnings : List String),
      confirmLoop cfg auto_mode i1 script command warnings
        = confirmLoop cfg auto_mode i2 script command warnings := by
  intro script
  induction script with
  | nil =>
      intro command warnings
      by_cases ha : auto_mode <;> simp [confirmLoop, ha, h1, h2]
  | cons p rest ih =>
      obtain ⟨choice, raw⟩ := p
      intro command warnings
      by_cases ha : auto_mode
      · simp [confirmLoop, ha]
      · simp only [confirmLoop]
        rw [if_neg ha, if_neg ha, if_neg h1, if_neg h2]
        split
        · rfl
        · rfl
        · exact ih command warnings
        · exact ih command warnings
        · split
          · exact ih command warnings
          · split
            · exact ih command warnings
            · split
              · rfl
              · exact ih _ _
              · exact ih command warnings

/-- Claim C6 counterexample: the same command text with the same user
decisions, validated identically, is executed under advisory low but
auto-cancelled under advisory critical — the advisory metadata does
influence whether the command runs. -/
theorem c6_advisory_influences_outcome :
    process_user_command defaultSecurityCfg false
        ⟨"ls -la /tmp", "", "low", ""⟩ [(UserChoice.execute, "")]
      = CycleOutcome.executed "ls -la /tmp" []
  ∧ process_user_command defaultSecurityCfg false
        ⟨"ls -la /tmp", "", "critical", ""⟩ [(UserChoice.execute, "")]
      = CycleOutcome.cancelled :=
  ⟨rfl, rfl⟩

/-- Claim C6 (corrected): noninterference of advisory metadata holds
exactly for advisory strings not lowercasing to critical — for two
generator outputs with the same command text and such advisories, under
the same policy and scripted decisions, the cycle outcome (including
whether and what is executed) is identical; the accept or reject verdict
is recomputed by the validator, which never reads the advisory. -/
theorem c6_noninterference_noncritical (cfg : SecurityCfg) (auto_mode : Bool)
    (i1 i2 : CommandInfo) (script : List (UserChoice × String))
    (hcmd : i1.command = i2.command)
    (h1 : pyLower i1.risk_level ≠ "critical")
    (h2 : pyLower i2.risk_level ≠ "critical") :
    process_user_command cfg auto_mode i1 script
      = process_user_command cfg auto_mode i2 script := by
  unfold process_user_command
  rw [hcmd]
  by_cases hc : i2.command = ""
  · simp [hc]
  · rw [if_neg hc, if_neg hc]
    cases hval : validate_command cfg i2.command with
    | error e => rfl
    | ok p =>
        obtain ⟨b, wv⟩ := p
        cases b
        · rfl
        · exact confirmLoop_advisory_agnostic cfg auto_mode i1 i2 h1 h2
            script i2.command wv

/-- Witness for the corrected claim C6 at concrete advisories low and
medium on the same benign command. -/
theorem c6_noninterference_noncritical_witness :
    process_user_command defaultSecurityCfg false
        ⟨"ls -la /tmp", "", "low", ""⟩ [(UserChoice.execute, "")]
      = process_user_command defaultSecurityCfg false
        ⟨"ls -la /tmp", "d2", "medium", "e2"⟩ [(UserChoice.execute, "")] :=
  c6_noninterference_noncritical defaultSecurityCfg false
    ⟨"ls -la /tmp", "", "low", ""⟩ ⟨"ls -la /tmp", "d2", "medium", "e2"⟩
    [(UserChoice.execute, "")] rfl (by decide) (by decide)

/-- Claim C9 (confirmed): a MODIFY step revalidates the replacement text;
if accepted, the replacement with its fresh warnings becomes the presented
command (and a following EXECUTE runs the replacement, not the original);
if rejected, the previously presented text and warnings remain in force
with no fallback to the rejected text. -/
theorem c9_modify_semantics (cfg : SecurityCfg) (info : CommandInfo)
    (command raw m : String) (warnings w2 : List String) (b : Bool)
    (rest : List (UserChoice × String))
    (hcrit : pyLower info.risk_level ≠ "critical")
    (hm : get_modified_command raw command = some m)
    (hne : m ≠ "")
    (hv : validate_command cfg m = Except.ok (b, w2)) :
    confirmLoop cfg false info ((UserChoice.modify, raw) :: rest) command warnings
      = confirmLoop cfg false info rest (if b then m else command)
          (if b then w2 else warnings)
  ∧ confirmLoop cfg false info
        [(UserChoice.modify, raw), (UserChoice.execute, "")] command warnings
      = CycleOutcome.executed (if b then m else command)
          (if b then w2 else warnings) := by
  have hstep : ∀ rest₀ : List (UserChoice × String),
      confirmLoop cfg false info ((UserChoice.modify, raw) :: rest₀) command warnings
        = confirmLoop cfg false info rest₀ (if b then m else command)
            (if b then w2 else warnings) := by
    intro rest₀
    cases b <;> simp [confirmLoop, hcrit, hm, hne, hv]
  refine ⟨hstep rest, ?_⟩
  rw [hstep [(UserChoice.execute, "")]]
  cases b <;> simp [confirmLoop, hcrit]

/-- Witness for claim C9: modifying the presented command `ls` to the
accepted replacement and then choosing EXECUTE runs the replacement. -/
theorem c9_modify_semantics_witness :
    confirmLoop defaultSecurityCfg false ⟨"ls", "", "low", ""⟩
        [(UserChoice.modify, "ls -la /tmp"), (UserChoice.execute, "")] "ls" []
      = CycleOutcome.executed "ls -la /tmp" [] := by
  have h := c9_modify_semantics defaultSecurityCfg ⟨"ls", "", "low", ""⟩
    "ls" "ls -la /tmp" "ls -la /tmp" [] [] true [] (by decide) rfl (by decide) rfl
  simpa using h.2

/-- Claim C10 counterexample: `nc` occurs inside `rsync`, so by the claim
the network finding should be produced, but the classifier raises the
`RiskLevel` comparison error and returns no findings at all. -/
theorem c10_network_substring_crashes :
    networkHit "rsync -a src dst" = true
  ∧ check_command_safety defaultSecurityCfg "rsync -a src dst"
      = Except.error (PyError.typeError riskMaxMsg) :=
  ⟨rfl, rfl⟩

/-- Claim C10 (corrected): privileged-command and network-tool detection
is plain substring containment over the raw text — the branch conditions
hold exactly when some listed name occurs anywhere, including inside a
longer word — but whenever the privileged or the network branch fires,
`check_command_safety` raises the `RiskLevel` comparison `TypeError`
instead of returning the finding. -/
theorem c10_substring_detection (cfg : SecurityCfg) (command : String)
    (h : sudoHit command = true ∨ networkHit command = true) :
    (sudoHit command = true ↔ ∃ n ∈ SUDO_COMMANDS, n.toList <:+: command.toList)
  ∧ (networkHit command = true ↔ ∃ n ∈ network_commands, n.toList <:+: command.toList)
  ∧ check_command_safety cfg command = Except.error (PyError.typeError riskMaxMsg) := by
  refine ⟨?_, ?_, ?_⟩
  · unfold sudoHit
    rw [List.any_eq_true]
    constructor
    · rintro ⟨n, hn, hc⟩
      exact ⟨n, hn, (strContains_iff command n).mp hc⟩
    · rintro ⟨n, hn, hc⟩
      exact ⟨n, hn, (strContains_iff command n).mpr hc⟩
  · unfold networkHit
    rw [List.any_eq_true]
    constructor
    · rintro ⟨n, hn, hc⟩
      exact ⟨n, hn, (strContains_iff command n).mp hc⟩
    · rintro ⟨n, hn, hc⟩
      exact ⟨n, hn, (strContains_iff command n).mpr hc⟩
  · unfold check_command_safety
    rw [sudoStage_eq]
    rcases h with hs | hn
    · rw [if_pos hs]
    · by_cases hs : sudoHit command
      · rw [if_pos hs]
      · rw [if_neg hs]
        rcases fileStage_cases cfg command (dangerousScan command) with hfe | hfe
        · simp only [hfe, networkStage_eq, hn, if_true]
        · simp only [hfe]

/-- Witness for the corrected claim C10 on a concrete rsync command:
the network condition fires purely by substring containment and the
classifier raises. -/
theorem c10_substring_detection_witness :
    (sudoHit "rsync -a src dst" = true
      ↔ ∃ n ∈ SUDO_COMMANDS, n.toList <:+: "rsync -a src dst".toList)
  ∧ (networkHit "rsync -a src dst" = true
      ↔ ∃ n ∈ network_commands, n.toList <:+: "rsync -a src dst".toList)
  ∧ check_command_safety defaultSecurityCfg "rsync -a src dst"
      = Except.error (PyError.typeError riskMaxMsg) :=
  c10_substring_detection defaultSecurityCfg "rsync -a src dst" (Or.inr rfl)

end AgentTool
